import Mathlib

/-!
Verification of the image-generation pipeline of gp-ai-studio.

The development shallowly embeds the two source modules:
* `services/geminiService.ts` — image compression (`compressImage`),
  prompt construction, and the retrying call `generateFurnitureImage`
  against the external generation endpoint;
* `App.tsx` — the caller `handleFeatureSelect`, in particular its
  error post-processing and the "has valid credential" flag update.

The external endpoint is modelled as a function from the attempt index
to an outcome (a structural response, or a raised error message), and
the retry loop is the function `loopFrom` / `run` below, which also
records the number of endpoint calls made and the waits performed.
-/

namespace GPAI

/-- JavaScript `String.prototype.includes` over explicit character
lists: `containsList pat s` is true when `pat` occurs as a contiguous
run inside `s`. -/
def prefixOfList : List Char → List Char → Bool
  | [], _ => true
  | _ :: _, [] => false
  | a :: as, b :: bs => a == b && prefixOfList as bs

def containsList (pat : List Char) : List Char → Bool
  | [] => prefixOfList pat []
  | b :: bs => prefixOfList pat (b :: bs) || containsList pat bs

/-- JavaScript `s.includes(pat)` (substring containment). -/
def strContains (s pat : String) : Bool :=
  containsList pat.toList s.toList

/-! ## Data model of the endpoint response (shape used by the source)

`generateFurnitureImage` reads `response.candidates`,
`candidates[0].content.parts`, and for each part
`part.inlineData && part.inlineData.data`.  Optional fields become
`Option`; the JavaScript truthiness test on the `data` string also
rejects the empty string. -/

structure InlineData where
  data : Option String
deriving Repr, DecidableEq

structure Part where
  inlineData : Option InlineData
deriving Repr, DecidableEq

structure Content where
  parts : List Part
deriving Repr, DecidableEq

structure Candidate where
  content : Content
deriving Repr, DecidableEq

structure Response where
  candidates : Option (List Candidate)
deriving Repr, DecidableEq

/-- The truthiness test `part.inlineData && part.inlineData.data`,
returning the image bytes when the test passes. -/
def partImage (p : Part) : Option String :=
  match p.inlineData with
  | none => none
  | some d =>
    match d.data with
    | none => none
    | some s => if s = "" then none else some s

/-- The scan of `candidates[0].content.parts` for the first part that
carries inline image data, guarded by
`candidates && candidates.length > 0`. -/
def firstImageOfParts : List Part → Option String
  | [] => none
  | p :: ps =>
    match partImage p with
    | some s => some s
    | none => firstImageOfParts ps

def firstImage (r : Response) : Option String :=
  match r.candidates with
  | none => none
  | some [] => none
  | some (c :: _) => firstImageOfParts c.content.parts

/-! ## Cost constants and result construction -/

def ESTIMATED_COST_USD : ℚ := 0.002

def EXCHANGE_RATE : ℚ := 25400

/-- JavaScript `Math.round` on a non-negative rational:
round half up, `⌊q + 1/2⌋`. -/
def jsMathRound (q : ℚ) : ℤ := ⌊q + 1 / 2⌋

/-- Digits of `n` padded on the left with zeros up to width `w`. -/
def padLeftZeros (w : Nat) (n : Nat) : String :=
  (String.mk (List.replicate (w - (toString n).length) '0')) ++ toString n

/-- JavaScript `x.toFixed(4)` for a non-negative rational. -/
def toFixed4 (q : ℚ) : String :=
  let n := (jsMathRound (q * 10000)).toNat
  toString (n / 10000) ++ "." ++ padLeftZeros 4 (n % 10000)

/-- JavaScript `n.toLocaleString` in the vi-VN locale, for a natural number:
digit groups of three separated by `.` (fuel-indexed helper; `fuel = n`
always suffices since the argument shrinks by a factor of 1000). -/
def toLocaleViVNAux : Nat → Nat → String
  | 0, n => toString n
  | fuel + 1, n =>
    if n < 1000 then toString n
    else toLocaleViVNAux fuel (n / 1000) ++ "." ++ padLeftZeros 3 (n % 1000)

def toLocaleViVN (n : Nat) : String := toLocaleViVNAux n n

structure CostInfo where
  usd : String
  vnd : String
deriving Repr, DecidableEq

structure GenerationResult where
  imageUrl : String
  cost : CostInfo
deriving Repr, DecidableEq

/-- The success value built at the `return` site of
`generateFurnitureImage`, from the chosen part's inline data
(`costUsd = ESTIMATED_COST_USD`,
`costVnd = Math.round(costUsd * EXCHANGE_RATE)` inlined). -/
def mkResult (data : String) : GenerationResult :=
  { imageUrl := "data:image/jpeg;base64," ++ data
    cost :=
      { usd := "$" ++ toFixed4 ESTIMATED_COST_USD
        vnd := toLocaleViVN (jsMathRound (ESTIMATED_COST_USD * EXCHANGE_RATE)).toNat ++ " đ" } }

/-! ## The retry loop -/

def MAX_RETRIES : Nat := 2

/-- Outcome of one call to the external generation endpoint: a
structural response, or a raised error carrying its message. -/
inductive EndpointResult where
  | ok (resp : Response)
  | raise (msg : String)
deriving Repr, DecidableEq

/-- An endpoint under test: the outcome it produces on each attempt
index. -/
def Endpoint := Nat → EndpointResult

/-- The error message thrown when a structurally valid response holds
no image part. -/
def NO_IMAGE_MSG : String := "Không nhận được kết quả hình ảnh từ Gemini."

def OVERLOADED_MSG : String :=
  "Hệ thống đang quá tải (Rate Limit). Vui lòng thử lại sau ít phút."

def TOO_LARGE_MSG : String := "Ảnh quá lớn. Vui lòng chọn ảnh nhỏ hơn."

def FALLBACK_MSG : String := "Không thể xử lý hình ảnh sau nhiều lần thử."

def KEY_SIGNAL : String := "Requested entity was not found"

/-- The `isRateLimit` classification inside the catch block of
`generateFurnitureImage`. -/
def isRateLimit (msg : String) : Bool :=
  strContains msg "429" ||
  strContains msg "Quota exceeded" ||
  strContains msg "RESOURCE_EXHAUSTED"

/-- The body of the `try` block of one attempt: a successful endpoint
response either yields the result built from the first image part of
`candidates[0]`, or throws the "no image" error, which the enclosing
`catch` receives like an endpoint error. -/
def attemptResult : EndpointResult → Except String GenerationResult
  | .ok resp =>
    match firstImage resp with
    | some d => .ok (mkResult d)
    | none => .error NO_IMAGE_MSG
  | .raise m => .error m

/-- Terminal outcome of one `generateFurnitureImage` call.  The
`fallback` constructor marks the throw site after the `for` loop. -/
inductive RunResult where
  | success (res : GenerationResult)
  | error (msg : String)
  | fallback (msg : String)
deriving Repr, DecidableEq

/-- Observable trace of one call: how many endpoint calls were made,
which waits were performed (in order), and the terminal outcome. -/
structure RunTrace where
  attempts : Nat
  delays : List Nat
  outcome : RunResult
deriving Repr, DecidableEq

/-- The body of the `for (let attempt = 0; attempt <= MAX_RETRIES; ...)`
loop of `generateFurnitureImage`.  `gas` counts the loop iterations
still permitted by the loop condition (`MAX_RETRIES + 1 - attempt`);
`gas = 0` is the loop condition failing, which falls through to the
final `throw` after the loop. -/
def loopAux (endpoint : Endpoint) : (attempt gas : Nat) → RunTrace
  | _, 0 => { attempts := 0, delays := [], outcome := .fallback FALLBACK_MSG }
  | attempt, g + 1 =>
    match attemptResult (endpoint attempt) with
    | .ok res => { attempts := 1, delays := [], outcome := .success res }
    | .error msg =>
      if strContains msg KEY_SIGNAL then
        { attempts := 1, delays := [], outcome := .error "KEY_ERROR" }
      else if attempt < MAX_RETRIES then
        let d := if isRateLimit msg then (attempt + 1) * 5000 + 2000 else 1000
        let rest := loopAux endpoint (attempt + 1) g
        { attempts := 1 + rest.attempts
          delays := d :: rest.delays
          outcome := rest.outcome }
      else if isRateLimit msg then
        { attempts := 1, delays := [], outcome := .error OVERLOADED_MSG }
      else if strContains msg "413" || strContains msg "too large" then
        { attempts := 1, delays := [], outcome := .error TOO_LARGE_MSG }
      else
        { attempts := 1, delays := [], outcome := .error msg }

/-- The loop entered at index `attempt`. -/
def loopFrom (endpoint : Endpoint) (attempt : Nat) : RunTrace :=
  loopAux endpoint attempt (MAX_RETRIES + 1 - attempt)

/-- One full `generateFurnitureImage` call against `endpoint`. -/
def run (endpoint : Endpoint) : RunTrace :=
  loopFrom endpoint 0

/-! ## Image preprocessor (`compressImage`)

The browser pieces (Image decoding, canvas, `toDataURL`) are modelled
by a `LoadResult` describing what decoding produced and by an abstract
encoder function; the arithmetic on the dimensions is translated
exactly. -/

/-- JavaScript `Math.round(a / b)` for naturals (`b > 0` at every use
site): round half up, `⌊a / b + 1 / 2⌋ = (2a + b) / (2b)`. -/
def jsRoundNat (a b : Nat) : Nat := (2 * a + b) / (2 * b)

/-- The dimension calculation of `compressImage`: cap the longer edge
at `maxWidth`, scaling the other edge proportionally. -/
def compressDims (width height maxWidth : Nat) : Nat × Nat :=
  if width > height then
    if width > maxWidth then (maxWidth, jsRoundNat (height * maxWidth) width)
    else (width, height)
  else
    if height > maxWidth then (jsRoundNat (width * maxWidth) height, maxWidth)
    else (width, height)

/-- What the browser image decode produced: `loadError` is the
`img.onerror` path; `loaded` gives the decoded pixel dimensions and
whether `canvas.getContext` returned a context. -/
inductive LoadResult where
  | loadError
  | loaded (width height : Nat) (ctxOk : Bool)
deriving Repr, DecidableEq

/-- `compressImage` with the decode outcome and the canvas encoder
made explicit.  Every path resolves; the promise in the source never
rejects. -/
def compressImage (base64Str : String) (maxWidth : Nat) (quality : ℚ)
    (load : LoadResult) (toDataURL : Nat → Nat → ℚ → String) : String :=
  match load with
  | .loadError => base64Str
  | .loaded w h ctxOk =>
    let dims := compressDims w h maxWidth
    if ctxOk then toDataURL dims.1 dims.2 quality else base64Str

/-- The default arguments `maxWidth = 1024, quality = 0.8` used by the
call inside `generateFurnitureImage`. -/
def compressImageDefault (base64Str : String) (load : LoadResult)
    (toDataURL : Nat → Nat → ℚ → String) : String :=
  compressImage base64Str 1024 0.8 load toDataURL

/-! ## Prompt builder

The two template literals of `generateFurnitureImage`, split at the
`option` interpolation points (and, for convenience of reference, at
the item-count clause); concatenating the pieces yields exactly the
source text. -/

inductive FeatureType where
  | MULTI_ANGLE
  | SCENE_PLACEMENT
deriving Repr, DecidableEq

def COUNT_CLAUSE : String := "PRESERVE EXACT NUMBER OF ITEMS"

def ANGLE_PRE : String :=
  "You are a professional product photographer. \n    Your task is to photograph the furniture item provided in the input image from a specific new angle.\n\n    Target Viewpoint: "

def ANGLE_MID : String :=
  ".\n\n    CRITICAL INSTRUCTIONS:\n    1. TRANSFORMATION: You must rotate the object to match the Target Viewpoint exactly. Do not output the original view.\n    2. INFERENCE: If the new view (e.g., Back, Top-down) hides details or reveals unseen areas, logically infer the design based on the item\x27s style and symmetry.\n    3. BACKGROUND: Place the object in a professional, neutral studio background (soft grey/white). COMPLETELY REMOVE the original background.\n    4. FIDELITY: Keep the materials, colors, and design details identical to the product in the input image.\n    5. QUANTITY: "

def ANGLE_POST : String :=
  ". Do not add or remove any furniture pieces. If the input has 1 chair, the output must have exactly 1 chair.\n    \n    The result must look like a fresh photo taken from the requested angle, distinctly different from the original image composition."

def SCENE_PRE : String :=
  "You are a professional interior designer and 3D artist.\n    Your task is to place the furniture item from the input image into a completely new environment.\n\n    Target Scene: "

def SCENE_MID1 : String :=
  ".\n\n    CRITICAL INSTRUCTIONS:\n    1. NEW ENVIRONMENT: Place the product in a brand new, high-end, photorealistic "

def SCENE_MID2 : String :=
  ".\n    2. DIFFERENTIATION: The background and lighting MUST be completely different from the original image. Do not preserve the original room context.\n    3. INTEGRATION: Ensure realistic shadows, reflections, and lighting that match the new scene.\n    4. ISOLATION: Cleanly separate the furniture from its original background before placing it.\n    5. QUANTITY: "

def SCENE_POST : String :=
  ". Do not add or remove any furniture pieces. If the input has 1 chair, the output must have exactly 1 chair.\n    \n    The final image should look like a professional catalog photo in a modern home setting."

/-- The prompt constructed by `generateFurnitureImage` for the given
feature type and option label. -/
def buildPrompt (featureType : FeatureType) (option : String) : String :=
  match featureType with
  | .MULTI_ANGLE =>
    ANGLE_PRE ++ option ++ ANGLE_MID ++ COUNT_CLAUSE ++ ANGLE_POST
  | .SCENE_PLACEMENT =>
    SCENE_PRE ++ option ++ SCENE_MID1 ++ option ++ SCENE_MID2 ++ COUNT_CLAUSE ++ SCENE_POST

/-! ## The caller (`handleFeatureSelect` in `App.tsx`)

Its catch block rewrites the received error message and updates the
`hasApiKey` flag; everything else it does is view state. -/

def DEFAULT_ERR_MSG : String := "Đã xảy ra lỗi trong quá trình xử lý."

def KEY_ERROR_DISPLAY : String :=
  "Lỗi xác thực thanh toán. Vui lòng kết nối lại tài khoản."

def LIMIT_ZERO_DISPLAY : String :=
  "Tài khoản thanh toán của bạn đã hết hạn mức. Vui lòng kiểm tra lại Google Cloud Billing."

def BUSY_DISPLAY : String :=
  "Hệ thống đang bận (Quá tải). Vui lòng đợi khoảng 1 phút rồi thử lại."

/-- `err.message || "Đã xảy ra lỗi..."`: JavaScript falls back on the
default when the message is falsy (empty). -/
def callerMessage (msg : String) : String :=
  if msg = "" then DEFAULT_ERR_MSG else msg

/-- The error rewriting of the catch block of `handleFeatureSelect`: given
the message of the caught error and the current `hasApiKey` flag,
produce the displayed error and the flag afterwards. -/
def handleError (msg : String) (hasApiKey : Bool) : String × Bool :=
  let errorMessage := callerMessage msg
  if errorMessage = "KEY_ERROR" then
    (KEY_ERROR_DISPLAY, false)
  else if strContains errorMessage "429" ||
      strContains errorMessage "quota" ||
      strContains errorMessage "exhausted" ||
      strContains errorMessage "Resource has been exhausted" then
    if strContains errorMessage "limit: 0" || strContains errorMessage "limit:0" then
      (LIMIT_ZERO_DISPLAY, hasApiKey)
    else
      (BUSY_DISPLAY, hasApiKey)
  else
    (errorMessage, hasApiKey)

/-! ## Spec-side definitions (for refinement comparisons only)

These two follow the words of the specification, not the source, and
exist to be compared with the source-derived definitions above. -/

/-- Following the spec's words: the provider rate-limit signals listed
in the spec's external-interface section, restricted to the
quota/rate-limit family named by the classification sentence. -/
def specRateLimitSignals : List String :=
  ["429", "quota", "exhausted", "Resource has been exhausted",
   "RESOURCE_EXHAUSTED", "Quota exceeded"]

/-- Following the spec's words: an error is rate-limit-class exactly
when its message contains any listed signal. -/
def specIsRateLimit (msg : String) : Bool :=
  specRateLimitSignals.any (fun sig => strContains msg sig)

/-- Following the spec's words: the response contains at least one
candidate whose content includes a part with inline image data. -/
def specAnyCandidateHasImage (r : Response) : Bool :=
  match r.candidates with
  | none => false
  | some cs =>
    cs.any (fun c => c.content.parts.any (fun p => (partImage p).isSome))

/-- The source's success condition: the first candidate (and only it)
contains a part with inline image data. -/
def firstCandidateHasImage (r : Response) : Bool :=
  match r.candidates with
  | none => false
  | some [] => false
  | some (c :: _) => c.content.parts.any (fun p => (partImage p).isSome)

/-! ## Helper lemmas: substring containment -/

theorem prefixOfList_iff : ∀ (p l : List Char), prefixOfList p l = true ↔ p <+: l
  | [], l => by simp [prefixOfList]
  | a :: as, [] => by simp [prefixOfList]
  | a :: as, b :: bs => by
    simp [prefixOfList, List.cons_prefix_cons, prefixOfList_iff as bs,
      Bool.and_eq_true, beq_iff_eq]

theorem containsList_iff : ∀ (p l : List Char), containsList p l = true ↔ p <:+: l
  | p, [] => by
    simp [containsList, prefixOfList_iff, List.prefix_nil, List.infix_nil]
  | p, b :: bs => by
    simp [containsList, prefixOfList_iff, containsList_iff p bs,
      List.infix_cons_iff, Bool.or_eq_true]

theorem strContains_iff (s pat : String) :
    strContains s pat = true ↔ pat.toList <:+: s.toList :=
  containsList_iff pat.toList s.toList

theorem strContains_of_middle (a b c : String) : strContains (a ++ b ++ c) b = true := by
  rw [strContains_iff]
  refine ⟨a.toList, c.toList, ?_⟩
  simp [String.toList]

theorem string_append_cancel (a b c : String) (h : a ++ b = a ++ c) : b = c := by
  have hd := congrArg String.data h
  simp only [String.data_append] at hd
  have hbc := List.append_cancel_left hd
  cases b
  cases c
  exact congrArg String.mk hbc

/-! ## Helper lemmas: one attempt -/

theorem attemptResult_raise (m : String) : attemptResult (.raise m) = .error m := rfl

theorem attemptResult_error (x : EndpointResult) (m : String)
    (h : attemptResult x = .error m) :
    x = .raise m ∨ ∃ r, x = .ok r ∧ m = NO_IMAGE_MSG := by
  cases x with
  | raise m0 =>
    left
    simp only [attemptResult] at h
    cases h
    rfl
  | ok r =>
    right
    refine ⟨r, rfl, ?_⟩
    simp only [attemptResult] at h
    cases hf : firstImage r with
    | some d => rw [hf] at h; cases h
    | none => rw [hf] at h; cases h; rfl

theorem attemptResult_ok (x : EndpointResult) (r : GenerationResult)
    (h : attemptResult x = .ok r) :
    ∃ resp d, x = .ok resp ∧ firstImage resp = some d ∧ r = mkResult d := by
  cases x with
  | raise m0 => simp [attemptResult] at h
  | ok resp =>
    cases hf : firstImage resp with
    | some d =>
      refine ⟨resp, d, rfl, hf, ?_⟩
      simp only [attemptResult, hf] at h
      cases h
      rfl
    | none => simp [attemptResult, hf] at h

/-! ## Helper lemmas: stepping the retry loop -/

theorem loopAux_ok (e : Endpoint) (a g : Nat) (r : GenerationResult)
    (hr : attemptResult (e a) = .ok r) :
    loopAux e a (g + 1) = { attempts := 1, delays := [], outcome := .success r } := by
  simp only [loopAux]
  rw [hr]

theorem loopAux_key (e : Endpoint) (a g : Nat) (m : String)
    (hm : attemptResult (e a) = .error m)
    (hk : strContains m KEY_SIGNAL = true) :
    loopAux e a (g + 1) = { attempts := 1, delays := [], outcome := .error "KEY_ERROR" } := by
  simp only [loopAux]
  rw [hm]
  simp [hk]

theorem loopAux_retry (e : Endpoint) (a g : Nat) (m : String)
    (hm : attemptResult (e a) = .error m)
    (hk : strContains m KEY_SIGNAL = false)
    (hlt : a < MAX_RETRIES) :
    loopAux e a (g + 1) =
      { attempts := 1 + (loopAux e (a + 1) g).attempts
        delays := (if isRateLimit m then (a + 1) * 5000 + 2000 else 1000) ::
          (loopAux e (a + 1) g).delays
        outcome := (loopAux e (a + 1) g).outcome } := by
  simp only [loopAux]
  rw [hm]
  simp [hk, hlt]

theorem loopAux_final (e : Endpoint) (a g : Nat) (m : String)
    (hm : attemptResult (e a) = .error m)
    (hk : strContains m KEY_SIGNAL = false)
    (hge : ¬ a < MAX_RETRIES) :
    loopAux e a (g + 1) =
      { attempts := 1, delays := []
        outcome :=
          if isRateLimit m then .error OVERLOADED_MSG
          else if strContains m "413" || strContains m "too large" then .error TOO_LARGE_MSG
          else .error m } := by
  simp only [loopAux]
  rw [hm]
  simp only [hk, Bool.false_eq_true, if_false, hge]
  split
  · rfl
  · split
    · rfl
    · rfl

/-! ## Helper lemmas: whole-run characterizations -/

theorem loopAux_attempts_le (e : Endpoint) :
    ∀ (g a : Nat), (loopAux e a g).attempts ≤ g := by
  intro g
  induction g with
  | zero => intro a; simp [loopAux]
  | succ g ih =>
    intro a
    cases hr : attemptResult (e a) with
    | ok r => rw [loopAux_ok e a g r hr]; simp
    | error m =>
      cases hk : strContains m KEY_SIGNAL with
      | true => rw [loopAux_key e a g m hr hk]; simp
      | false =>
        by_cases hlt : a < MAX_RETRIES
        · rw [loopAux_retry e a g m hr hk hlt]
          have := ih (a + 1)
          simp only
          omega
        · rw [loopAux_final e a g m hr hk hlt]; simp

theorem loopAux_no_fallback (e : Endpoint) :
    ∀ (g a : Nat), a ≤ MAX_RETRIES → a + g = MAX_RETRIES + 1 →
      ∀ m, (loopAux e a g).outcome ≠ .fallback m := by
  intro g
  induction g with
  | zero => intro a ha hg; omega
  | succ g ih =>
    intro a ha hg m
    cases hr : attemptResult (e a) with
    | ok r => rw [loopAux_ok e a g r hr]; simp
    | error m0 =>
      cases hk : strContains m0 KEY_SIGNAL with
      | true => rw [loopAux_key e a g m0 hr hk]; simp
      | false =>
        by_cases hlt : a < MAX_RETRIES
        · rw [loopAux_retry e a g m0 hr hk hlt]
          exact ih (a + 1) (by omega) (by omega) m
        · rw [loopAux_final e a g m0 hr hk hlt]
          simp only
          split
          · simp
          · split
            · simp
            · simp

theorem loopAux_error_charac (e : Endpoint) :
    ∀ (g a : Nat) (m : String), (loopAux e a g).outcome = .error m →
      m = "KEY_ERROR" ∨ m = OVERLOADED_MSG ∨ m = TOO_LARGE_MSG ∨ m = NO_IMAGE_MSG ∨
        ∃ i, a ≤ i ∧ i < a + g ∧ e i = .raise m := by
  intro g
  induction g with
  | zero => intro a m h; simp [loopAux] at h
  | succ g ih =>
    intro a m h
    cases hr : attemptResult (e a) with
    | ok r => rw [loopAux_ok e a g r hr] at h; simp at h
    | error m0 =>
      cases hk : strContains m0 KEY_SIGNAL with
      | true =>
        rw [loopAux_key e a g m0 hr hk] at h
        simp only [RunResult.error.injEq] at h
        exact Or.inl h.symm
      | false =>
        by_cases hlt : a < MAX_RETRIES
        · rw [loopAux_retry e a g m0 hr hk hlt] at h
          rcases ih (a + 1) m h with h1 | h1 | h1 | h1 | ⟨i, hi1, hi2, hi3⟩
          · exact Or.inl h1
          · exact Or.inr (Or.inl h1)
          · exact Or.inr (Or.inr (Or.inl h1))
          · exact Or.inr (Or.inr (Or.inr (Or.inl h1)))
          · exact Or.inr (Or.inr (Or.inr (Or.inr ⟨i, by omega, by omega, hi3⟩)))
        · rw [loopAux_final e a g m0 hr hk hlt] at h
          simp only at h
          split at h
          · cases h; exact Or.inr (Or.inl rfl)
          · split at h
            · cases h; exact Or.inr (Or.inr (Or.inl rfl))
            · cases h
              rcases attemptResult_error (e a) m hr with h1 | ⟨r, _, h2⟩
              · exact Or.inr (Or.inr (Or.inr (Or.inr ⟨a, le_refl a, by omega, h1⟩)))
              · exact Or.inr (Or.inr (Or.inr (Or.inl h2)))

theorem loopAux_success_charac (e : Endpoint) :
    ∀ (g a : Nat) (r : GenerationResult), (loopAux e a g).outcome = .success r →
      ∃ i resp d, a ≤ i ∧ i < a + g ∧ e i = .ok resp ∧
        firstImage resp = some d ∧ r = mkResult d := by
  intro g
  induction g with
  | zero => intro a r h; simp [loopAux] at h
  | succ g ih =>
    intro a r h
    cases hr : attemptResult (e a) with
    | ok r0 =>
      rw [loopAux_ok e a g r0 hr] at h
      simp only [RunResult.success.injEq] at h
      subst h
      obtain ⟨resp, d, h1, h2, h3⟩ := attemptResult_ok (e a) r0 hr
      exact ⟨a, resp, d, le_refl a, by omega, h1, h2, h3⟩
    | error m0 =>
      cases hk : strContains m0 KEY_SIGNAL with
      | true => rw [loopAux_key e a g m0 hr hk] at h; simp at h
      | false =>
        by_cases hlt : a < MAX_RETRIES
        · rw [loopAux_retry e a g m0 hr hk hlt] at h
          obtain ⟨i, resp, d, hi1, hi2, hi3, hi4, hi5⟩ := ih (a + 1) r h
          exact ⟨i, resp, d, by omega, by omega, hi3, hi4, hi5⟩
        · rw [loopAux_final e a g m0 hr hk hlt] at h
          simp only at h
          split at h
          · cases h
          · split at h
            · cases h
            · cases h

/-- Reaching attempt `a`: when every earlier attempt fails with a
retryable (non-credential) error, the whole run is that prefix of
failed attempts followed by the run from attempt `a`. -/
theorem run_reach (e : Endpoint) :
    ∀ (a : Nat), a ≤ MAX_RETRIES →
      (∀ i, i < a → ∃ mi, attemptResult (e i) = .error mi ∧
        strContains mi KEY_SIGNAL = false) →
      (run e).attempts = a + (loopFrom e a).attempts ∧
        (run e).outcome = (loopFrom e a).outcome := by
  intro a
  induction a with
  | zero => intro _ _; exact ⟨by simp [run], rfl⟩
  | succ a ih =>
    intro ha hfail
    obtain ⟨h1, h2⟩ := ih (by omega) (fun i hi => hfail i (by omega))
    obtain ⟨ma, hma, hka⟩ := hfail a (by omega)
    have hlt : a < MAX_RETRIES := by omega
    have hg : MAX_RETRIES + 1 - a = (MAX_RETRIES + 1 - (a + 1)) + 1 := by omega
    have hstep := loopAux_retry e a (MAX_RETRIES + 1 - (a + 1)) ma hma hka hlt
    rw [loopFrom, hg, hstep] at h1 h2
    constructor
    · rw [h1, loopFrom]
      simp only
      omega
    · rw [h2, loopFrom]

theorem jsMathRound_cost_usd : jsMathRound (ESTIMATED_COST_USD * 10000) = 20 := by
  unfold jsMathRound ESTIMATED_COST_USD
  rw [Int.floor_eq_iff]
  norm_num

theorem jsMathRound_cost_vnd : jsMathRound (ESTIMATED_COST_USD * EXCHANGE_RATE) = 51 := by
  unfold jsMathRound ESTIMATED_COST_USD EXCHANGE_RATE
  rw [Int.floor_eq_iff]
  norm_num

theorem toFixed4_cost : toFixed4 ESTIMATED_COST_USD = "0.0020" := by
  unfold toFixed4
  rw [jsMathRound_cost_usd]
  decide

theorem mkResult_eval (d : String) :
    mkResult d =
      { imageUrl := "data:image/jpeg;base64," ++ d,
        cost := { usd := "$0.0020", vnd := "51 đ" } } := by
  unfold mkResult
  rw [jsMathRound_cost_vnd, toFixed4_cost]
  rfl

/-! ## Claims -/

/-- C1: the generation client makes at most 3 attempts per call
(indices 0, 1, 2); when an attempt fails with a rate-limit-class error
and the retry budget is not exhausted it waits
`(attemptIndex+1) * 5000 + 2000` milliseconds before the next attempt,
for every other retryable error it waits exactly 1000 milliseconds,
and an endpoint failing (retryably) on every attempt is called exactly
3 times. -/
theorem C1_retry_policy :
    (∀ e : Endpoint, (run e).attempts ≤ MAX_RETRIES + 1) ∧
    (∀ (e : Endpoint) (m : Nat → String),
      (∀ i, i ≤ MAX_RETRIES → attemptResult (e i) = .error (m i) ∧
        strContains (m i) KEY_SIGNAL = false) →
      (run e).attempts = 3 ∧
      (run e).delays =
        [if isRateLimit (m 0) then (0 + 1) * 5000 + 2000 else 1000,
         if isRateLimit (m 1) then (1 + 1) * 5000 + 2000 else 1000]) := by
  constructor
  · intro e
    exact loopAux_attempts_le e 3 0
  · intro e m hall
    obtain ⟨h0, k0⟩ := hall 0 (by omega)
    obtain ⟨h1, k1⟩ := hall 1 (by simp [MAX_RETRIES])
    obtain ⟨h2, k2⟩ := hall 2 (by simp [MAX_RETRIES])
    have s0 : loopAux e 0 3 =
        { attempts := 1 + (loopAux e 1 2).attempts
          delays := (if isRateLimit (m 0) then (0 + 1) * 5000 + 2000 else 1000) ::
            (loopAux e 1 2).delays
          outcome := (loopAux e 1 2).outcome } :=
      loopAux_retry e 0 2 (m 0) h0 k0 (by decide)
    have s1 : loopAux e 1 2 =
        { attempts := 1 + (loopAux e 2 1).attempts
          delays := (if isRateLimit (m 1) then (1 + 1) * 5000 + 2000 else 1000) ::
            (loopAux e 2 1).delays
          outcome := (loopAux e 2 1).outcome } :=
      loopAux_retry e 1 1 (m 1) h1 k1 (by decide)
    have s2 : loopAux e 2 1 =
        { attempts := 1, delays := []
          outcome :=
            if isRateLimit (m 2) then .error OVERLOADED_MSG
            else if strContains (m 2) "413" || strContains (m 2) "too large" then
              .error TOO_LARGE_MSG
            else .error (m 2) } :=
      loopAux_final e 2 0 (m 2) h2 k2 (by decide)
    have hrun : run e = loopAux e 0 3 := rfl
    rw [hrun, s0, s1, s2]
    constructor
    · rfl
    · rfl

/-- Witness for C1 at an endpoint that fails every attempt with a
rate-limit message. -/
theorem C1_retry_policy_witness :
    (run (fun _ => .raise "got 429 back")).attempts = 3 ∧
    (run (fun _ => .raise "got 429 back")).delays = [7000, 12000] := by
  have hkey : strContains "got 429 back" KEY_SIGNAL = false := by decide
  have h := C1_retry_policy.2 (fun _ => .raise "got 429 back") (fun _ => "got 429 back")
    (fun i _ => ⟨rfl, hkey⟩)
  refine ⟨h.1, ?_⟩
  rw [h.2]
  decide

/-- C2 counterexample: the spec-listed signal
`Resource has been exhausted` (which also contains the listed signals
`quota`-family word `exhausted`) is NOT classified as rate-limit-class
by the generation client: the retry delays are the flat 1000ms ones
and the final error is the raw message, not the localized "overloaded"
one. -/
theorem C2_rate_limit_signals_counterexample :
    specIsRateLimit "Resource has been exhausted" = true ∧
    isRateLimit "Resource has been exhausted" = false ∧
    run (fun _ => .raise "Resource has been exhausted") =
      { attempts := 3, delays := [1000, 1000],
        outcome := .error "Resource has been exhausted" } := by
  refine ⟨by decide, by decide, by decide⟩

/-- C2 amended: the generation client classifies an error as
rate-limit-class exactly when its message contains one of the three
signals `429`, `Quota exceeded`, `RESOURCE_EXHAUSTED` (case-sensitive;
a strict subset of the spec's signal list); that classification
selects the backoff delay after a failed attempt and the localized
"overloaded" message on final exhaustion. -/
theorem C2_rate_limit_signals_amended :
    (∀ msg : String, isRateLimit msg = true ↔
      ("429".toList <:+: msg.toList ∨ "Quota exceeded".toList <:+: msg.toList ∨
        "RESOURCE_EXHAUSTED".toList <:+: msg.toList)) ∧
    (∀ (e : Endpoint) (msg : String),
      attemptResult (e 0) = .error msg → strContains msg KEY_SIGNAL = false →
      (run e).delays.head? =
        some (if isRateLimit msg then (0 + 1) * 5000 + 2000 else 1000)) ∧
    (∀ (e : Endpoint) (m : Nat → String),
      (∀ i, i ≤ MAX_RETRIES → attemptResult (e i) = .error (m i) ∧
        strContains (m i) KEY_SIGNAL = false) →
      isRateLimit (m 2) = true →
      (run e).outcome = .error OVERLOADED_MSG) := by
  refine ⟨?_, ?_, ?_⟩
  · intro msg
    simp [isRateLimit, strContains_iff, Bool.or_eq_true, or_assoc]
  · intro e msg h0 k0
    have s0 : loopAux e 0 3 =
        { attempts := 1 + (loopAux e 1 2).attempts
          delays := (if isRateLimit msg then (0 + 1) * 5000 + 2000 else 1000) ::
            (loopAux e 1 2).delays
          outcome := (loopAux e 1 2).outcome } :=
      loopAux_retry e 0 2 msg h0 k0 (by decide)
    have hrun : run e = loopAux e 0 3 := rfl
    rw [hrun, s0]
    rfl
  · intro e m hall hrl
    obtain ⟨h0, k0⟩ := hall 0 (by omega)
    obtain ⟨h1, k1⟩ := hall 1 (by simp [MAX_RETRIES])
    obtain ⟨h2, k2⟩ := hall 2 (by simp [MAX_RETRIES])
    have s0 : (loopAux e 0 3).outcome = (loopAux e 1 2).outcome := by
      rw [loopAux_retry e 0 2 (m 0) h0 k0 (by decide)]
    have s1 : (loopAux e 1 2).outcome = (loopAux e 2 1).outcome := by
      rw [loopAux_retry e 1 1 (m 1) h1 k1 (by decide)]
    have s2 := loopAux_final e 2 0 (m 2) h2 k2 (by decide)
    have hrun : (run e).outcome = (loopAux e 0 3).outcome := rfl
    rw [hrun, s0, s1, s2, hrl]
    rfl

/-- Witness for C2 amended: a `RESOURCE_EXHAUSTED` endpoint gets the
backoff delay and the localized overloaded message. -/
theorem C2_rate_limit_signals_amended_witness :
    (run (fun _ => .raise "RESOURCE_EXHAUSTED")).delays.head? = some 7000 ∧
    (run (fun _ => .raise "RESOURCE_EXHAUSTED")).outcome = .error OVERLOADED_MSG := by
  constructor
  · have h := C2_rate_limit_signals_amended.2.1 (fun _ => .raise "RESOURCE_EXHAUSTED")
      "RESOURCE_EXHAUSTED" rfl (by decide)
    rw [h]
    decide
  · have hkey : strContains "RESOURCE_EXHAUSTED" KEY_SIGNAL = false := by decide
    exact C2_rate_limit_signals_amended.2.2 (fun _ => .raise "RESOURCE_EXHAUSTED")
      (fun _ => "RESOURCE_EXHAUSTED") (fun i _ => ⟨rfl, hkey⟩) (by decide)

/-- C3: an error containing "Requested entity was not found" aborts
the loop at the attempt where it occurs (no further attempts), raises
the sentinel `KEY_ERROR` regardless of remaining budget, and the
caller invalidates its "has valid credential" flag on `KEY_ERROR`. -/
theorem C3_key_error_aborts :
    ∀ (e : Endpoint) (a : Nat) (msg : String),
      a ≤ MAX_RETRIES →
      (∀ i, i < a → ∃ mi, attemptResult (e i) = .error mi ∧
        strContains mi KEY_SIGNAL = false) →
      e a = .raise msg →
      strContains msg KEY_SIGNAL = true →
      (run e).attempts = a + 1 ∧
      (run e).outcome = .error "KEY_ERROR" ∧
      (∀ flag : Bool, (handleError "KEY_ERROR" flag).2 = false) := by
  intro e a msg ha hprev hraise hkey
  obtain ⟨h1, h2⟩ := run_reach e a ha hprev
  obtain ⟨g, hg⟩ : ∃ g, MAX_RETRIES + 1 - a = g + 1 := ⟨MAX_RETRIES - a, by omega⟩
  have hm : attemptResult (e a) = .error msg := by
    rw [hraise]
    exact attemptResult_raise msg
  have hstep := loopAux_key e a g msg hm hkey
  rw [loopFrom, hg, hstep] at h1 h2
  refine ⟨h1, h2, ?_⟩
  intro flag
  cases flag <;> decide

/-- Witness for C3: "Requested entity was not found" on the first
attempt gives exactly 1 attempt and the `KEY_ERROR` sentinel, and the
flag is cleared. -/
theorem C3_key_error_aborts_witness :
    (run (fun _ => .raise "Requested entity was not found.")).attempts = 0 + 1 ∧
    (run (fun _ => .raise "Requested entity was not found.")).outcome = .error "KEY_ERROR" ∧
    (handleError "KEY_ERROR" true).2 = false := by
  have h := C3_key_error_aborts (fun _ => .raise "Requested entity was not found.") 0
    "Requested entity was not found." (by omega)
    (fun i hi => absurd hi (Nat.not_lt_zero i)) rfl (by decide)
  exact ⟨h.1, h.2.1, h.2.2 true⟩

theorem firstImageOfParts_some_iff :
    ∀ ps : List Part, (∃ d, firstImageOfParts ps = some d) ↔
      ps.any (fun p => (partImage p).isSome) = true := by
  intro ps
  induction ps with
  | nil => simp [firstImageOfParts]
  | cons p ps ih =>
    cases hp : partImage p with
    | some s => simp [firstImageOfParts, hp]
    | none => simp [firstImageOfParts, hp, ih]

theorem firstImage_some_iff (r : Response) :
    (∃ d, firstImage r = some d) ↔ firstCandidateHasImage r = true := by
  cases hc : r.candidates with
  | none => simp [firstImage, firstCandidateHasImage, hc]
  | some cs =>
    cases cs with
    | nil => simp [firstImage, firstCandidateHasImage, hc]
    | cons c rest =>
      simp only [firstImage, firstCandidateHasImage, hc]
      exact firstImageOfParts_some_iff c.content.parts

/-- C4 counterexample: a response whose first candidate has no image
part but whose second candidate does is treated as "no image
returned", refuting "at least one candidate" as the success
condition. -/
theorem C4_success_condition_counterexample :
    specAnyCandidateHasImage
      { candidates := some
          [{ content := { parts := [{ inlineData := none }] } },
           { content := { parts := [{ inlineData := some { data := some "IMG" } }] } }] } =
      true ∧
    attemptResult (.ok
      { candidates := some
          [{ content := { parts := [{ inlineData := none }] } },
           { content := { parts := [{ inlineData := some { data := some "IMG" } }] } }] }) =
      .error NO_IMAGE_MSG := by
  exact ⟨by decide, rfl⟩

/-- C4 amended: an attempt succeeds exactly when the FIRST candidate's
content includes a part with inline image data (other candidates are
never examined); the first such part of that candidate supplies the
result image, and otherwise the "no image returned" error is raised. -/
theorem C4_success_condition_amended :
    ∀ r : Response,
      ((∃ res, attemptResult (.ok r) = .ok res) ↔ firstCandidateHasImage r = true) ∧
      (∀ d, firstImage r = some d → attemptResult (.ok r) = .ok (mkResult d)) ∧
      (firstCandidateHasImage r = false → attemptResult (.ok r) = .error NO_IMAGE_MSG) := by
  intro r
  refine ⟨?_, ?_, ?_⟩
  · rw [← firstImage_some_iff]
    constructor
    · rintro ⟨res, hres⟩
      obtain ⟨resp, d, h1, h2, _⟩ := attemptResult_ok _ res hres
      cases h1
      exact ⟨d, h2⟩
    · rintro ⟨d, hd⟩
      exact ⟨mkResult d, by simp [attemptResult, hd]⟩
  · intro d hd
    simp [attemptResult, hd]
  · intro hno
    cases hf : firstImage r with
    | some d =>
      exfalso
      have := (firstImage_some_iff r).mp ⟨d, hf⟩
      rw [hno] at this
      cases this
    | none => simp [attemptResult, hf]

/-- Witness for C4 amended at a single-candidate response carrying
image bytes. -/
theorem C4_success_condition_amended_witness :
    attemptResult (.ok
      { candidates := some
          [{ content := { parts := [{ inlineData := some { data := some "Zg==" } }] } }] }) =
      .ok (mkResult "Zg==") :=
  (C4_success_condition_amended
    { candidates := some
        [{ content := { parts := [{ inlineData := some { data := some "Zg==" } }] } }] }).2.1
    "Zg==" rfl

/-- C5: every successful call returns the data URI built by prepending
`data:image/jpeg;base64,` to exactly the chosen part's inline bytes
(so stripping the prefix recovers them), and the cost fields are the
same fixed pair on every successful call: the formatted constant
`0.002` USD and the formatted `round(0.002 * 25400)` local amount. -/
theorem C5_result_shape :
    ∀ (e : Endpoint) (r : GenerationResult),
      (run e).outcome = .success r →
      ∃ i resp X, i ≤ MAX_RETRIES ∧ e i = .ok resp ∧ firstImage resp = some X ∧
        r.imageUrl = "data:image/jpeg;base64," ++ X ∧
        (∀ Y, "data:image/jpeg;base64," ++ Y = r.imageUrl → Y = X) ∧
        r.cost.usd = "$" ++ toFixed4 ESTIMATED_COST_USD ∧
        r.cost.vnd = toLocaleViVN (jsMathRound (ESTIMATED_COST_USD * EXCHANGE_RATE)).toNat ++ " đ" ∧
        r.cost = { usd := "$0.0020", vnd := "51 đ" } := by
  intro e r h
  obtain ⟨i, resp, d, hi1, hi2, hi3, hi4, hi5⟩ := loopAux_success_charac e 3 0 r h
  subst hi5
  refine ⟨i, resp, d, by simp only [MAX_RETRIES]; omega, hi3, hi4, ?_, ?_, rfl, rfl, ?_⟩
  · rw [mkResult_eval]
  · intro Y hY
    rw [mkResult_eval] at hY
    exact string_append_cancel _ _ _ hY
  · rw [mkResult_eval]

/-- Witness for C5 at an endpoint that succeeds immediately with
inline bytes `QUJD`. -/
theorem C5_result_shape_witness :
    ∃ i resp X, i ≤ MAX_RETRIES ∧
      (fun _ => EndpointResult.ok
        { candidates := some
            [{ content := { parts := [{ inlineData := some { data := some "QUJD" } }] } }] }) i =
        .ok resp ∧
      firstImage resp = some X ∧
      (mkResult "QUJD").imageUrl = "data:image/jpeg;base64," ++ X ∧
      (∀ Y, "data:image/jpeg;base64," ++ Y = (mkResult "QUJD").imageUrl → Y = X) ∧
      (mkResult "QUJD").cost.usd = "$" ++ toFixed4 ESTIMATED_COST_USD ∧
      (mkResult "QUJD").cost.vnd =
        toLocaleViVN (jsMathRound (ESTIMATED_COST_USD * EXCHANGE_RATE)).toNat ++ " đ" ∧
      (mkResult "QUJD").cost = { usd := "$0.0020", vnd := "51 đ" } :=
  C5_result_shape
    (fun _ => EndpointResult.ok
      { candidates := some
          [{ content := { parts := [{ inlineData := some { data := some "QUJD" } }] } }] })
    (mkResult "QUJD") rfl

/-- C6 counterexample: a generic transient error ("socket hang up") is
rethrown verbatim to the caller — it is neither the `KEY_ERROR`
sentinel nor any of the client's localized messages — and the
presentation layer itself re-classifies provider text (here a message
containing `quota`). -/
theorem C6_error_propagation_counterexample :
    (run (fun _ => .raise "socket hang up")).outcome = .error "socket hang up" ∧
    ("socket hang up" ≠ "KEY_ERROR" ∧ "socket hang up" ≠ OVERLOADED_MSG ∧
      "socket hang up" ≠ TOO_LARGE_MSG ∧ "socket hang up" ≠ NO_IMAGE_MSG ∧
      "socket hang up" ≠ FALLBACK_MSG ∧ "socket hang up" ≠ KEY_ERROR_DISPLAY ∧
      "socket hang up" ≠ LIMIT_ZERO_DISPLAY ∧ "socket hang up" ≠ BUSY_DISPLAY ∧
      "socket hang up" ≠ DEFAULT_ERR_MSG) ∧
    handleError "quota reached" true = (BUSY_DISPLAY, true) := by
  exact ⟨by decide, by decide, by decide⟩

/-- C6 amended: every error the generation client surfaces is the
`KEY_ERROR` sentinel, one of its localized messages (overloaded /
too-large / no-image), or the underlying endpoint error rethrown
verbatim; the caller performs its own additional classification of the
rethrown provider text. -/
theorem C6_error_propagation_amended :
    ∀ (e : Endpoint) (msg : String), (run e).outcome = .error msg →
      msg = "KEY_ERROR" ∨ msg = OVERLOADED_MSG ∨ msg = TOO_LARGE_MSG ∨
        msg = NO_IMAGE_MSG ∨ ∃ i, i ≤ MAX_RETRIES ∧ e i = .raise msg := by
  intro e msg h
  rcases loopAux_error_charac e 3 0 msg h with h1 | h1 | h1 | h1 | ⟨i, _, hi2, hi3⟩
  · exact Or.inl h1
  · exact Or.inr (Or.inl h1)
  · exact Or.inr (Or.inr (Or.inl h1))
  · exact Or.inr (Or.inr (Or.inr (Or.inl h1)))
  · exact Or.inr (Or.inr (Or.inr (Or.inr ⟨i, by simp only [MAX_RETRIES]; omega, hi3⟩)))

/-- Witness for C6 amended at an endpoint raising a generic error. -/
theorem C6_error_propagation_amended_witness :
    "boom" = "KEY_ERROR" ∨ "boom" = OVERLOADED_MSG ∨ "boom" = TOO_LARGE_MSG ∨
      "boom" = NO_IMAGE_MSG ∨
      ∃ i, i ≤ MAX_RETRIES ∧ (fun _ => EndpointResult.raise "boom") i = .raise "boom" :=
  C6_error_propagation_amended (fun _ => .raise "boom") "boom" (by decide)

/-- C7: the preprocessor's output has its longer edge at most 1024,
keeps the exact input dimensions whenever both already fit (never
upscales), and preserves the aspect ratio up to integer rounding of
the scaled edge (cross-multiplication differs by at most half the
longer edge: `2·|h'·w − w'·h| ≤ max w h`). -/
theorem C7_preprocessor_dimensions (w h : Nat) :
    max (compressDims w h 1024).1 (compressDims w h 1024).2 ≤ 1024 ∧
    (max w h ≤ 1024 → compressDims w h 1024 = (w, h)) ∧
    2 * |((compressDims w h 1024).2 : ℤ) * w - ((compressDims w h 1024).1 : ℤ) * h| ≤
      (max w h : ℤ) := by
  by_cases hwh : h < w
  · by_cases hcap : 1024 < w
    · have hdims : compressDims w h 1024 = (1024, jsRoundNat (h * 1024) w) := by
        simp [compressDims, hwh, hcap]
      rw [hdims]
      have hw0 : 0 < 2 * w := by omega
      have hqdef : jsRoundNat (h * 1024) w = (2 * (h * 1024) + w) / (2 * w) := rfl
      have hqle : jsRoundNat (h * 1024) w ≤ 1024 := by
        rw [hqdef]
        have hlt : 2 * (h * 1024) + w < 1025 * (2 * w) := by omega
        have := (Nat.div_lt_iff_lt_mul hw0).mpr hlt
        omega
      refine ⟨max_le (le_refl 1024) hqle, ?_, ?_⟩
      · intro hmax
        exfalso
        have := Nat.le_max_left w h
        omega
      · rw [hqdef]
        have hdm := Nat.div_add_mod (2 * (h * 1024) + w) (2 * w)
        have hmlt := Nat.mod_lt (2 * (h * 1024) + w) hw0
        set q := (2 * (h * 1024) + w) / (2 * w) with hq
        set r := (2 * (h * 1024) + w) % (2 * w) with hr
        have hz : 2 * (w:ℤ) * q + r = 2 * ((h:ℤ) * 1024) + w := by exact_mod_cast hdm
        have hrz : (r:ℤ) < 2 * w := by exact_mod_cast hmlt
        have hr0 : (0:ℤ) ≤ r := Int.natCast_nonneg r
        have hqw : 2 * ((q:ℤ) * w - 1024 * h) = (w:ℤ) - r := by linear_combination hz
        have hwmax : (w:ℤ) ≤ (max w h : ℤ) := by exact_mod_cast Nat.le_max_left w h
        have habs : |2 * ((q:ℤ) * w - 1024 * h)| ≤ (w:ℤ) := by
          rw [hqw, abs_le]
          constructor <;> linarith
        rw [abs_mul, abs_two] at habs
        push_cast
        linarith
    · have hdims : compressDims w h 1024 = (w, h) := by
        simp [compressDims, hwh, hcap]
      rw [hdims]
      refine ⟨max_le (by omega) (by omega), fun _ => rfl, ?_⟩
      have hzero : ((h:ℤ) * w - (w:ℤ) * h) = 0 := by ring
      simp only [hzero, abs_zero, mul_zero]
      positivity
  · by_cases hcap : 1024 < h
    · have hdims : compressDims w h 1024 = (jsRoundNat (w * 1024) h, 1024) := by
        simp [compressDims, hwh, hcap]
      rw [hdims]
      have hh0 : 0 < 2 * h := by omega
      have hqdef : jsRoundNat (w * 1024) h = (2 * (w * 1024) + h) / (2 * h) := rfl
      have hwle : w ≤ h := by omega
      have hqle : jsRoundNat (w * 1024) h ≤ 1024 := by
        rw [hqdef]
        have hlt : 2 * (w * 1024) + h < 1025 * (2 * h) := by omega
        have := (Nat.div_lt_iff_lt_mul hh0).mpr hlt
        omega
      refine ⟨max_le hqle (le_refl 1024), ?_, ?_⟩
      · intro hmax
        exfalso
        have := Nat.le_max_right w h
        omega
      · rw [hqdef]
        have hdm := Nat.div_add_mod (2 * (w * 1024) + h) (2 * h)
        have hmlt := Nat.mod_lt (2 * (w * 1024) + h) hh0
        set q := (2 * (w * 1024) + h) / (2 * h) with hq
        set r := (2 * (w * 1024) + h) % (2 * h) with hr
        have hz : 2 * (h:ℤ) * q + r = 2 * ((w:ℤ) * 1024) + h := by exact_mod_cast hdm
        have hrz : (r:ℤ) < 2 * h := by exact_mod_cast hmlt
        have hr0 : (0:ℤ) ≤ r := Int.natCast_nonneg r
        have hqw : 2 * ((1024:ℤ) * w - (q:ℤ) * h) = (r:ℤ) - h := by linear_combination -hz
        have hhmax : (h:ℤ) ≤ (max w h : ℤ) := by exact_mod_cast Nat.le_max_right w h
        have habs : |2 * ((1024:ℤ) * w - (q:ℤ) * h)| ≤ (h:ℤ) := by
          rw [hqw, abs_le]
          constructor <;> linarith
        rw [abs_mul, abs_two] at habs
        push_cast
        linarith
    · have hdims : compressDims w h 1024 = (w, h) := by
        simp [compressDims, hwh, hcap]
      rw [hdims]
      refine ⟨max_le (by omega) (by omega), fun _ => rfl, ?_⟩
      have hzero : ((h:ℤ) * w - (w:ℤ) * h) = 0 := by ring
      simp only [hzero, abs_zero, mul_zero]
      positivity

/-- Witness for C7: an image already under the cap is returned with
exactly its input dimensions. -/
theorem C7_preprocessor_dimensions_witness :
    compressDims 800 600 1024 = (800, 600) :=
  (C7_preprocessor_dimensions 800 600).2.1 (by decide)

/-- C8: the preprocessor resolves with the original input string
unchanged whenever the image fails to decode or no drawing context can
be obtained; the embedding is a total function, mirroring that the
promise in the source only ever resolves (there is no reject path). -/
theorem C8_preprocessor_fallback :
    ∀ (s : String) (maxW : Nat) (quality : ℚ) (load : LoadResult)
      (enc : Nat → Nat → ℚ → String),
      (load = .loadError ∨ ∃ w h, load = .loaded w h false) →
      compressImage s maxW quality load enc = s := by
  intro s maxW quality load enc hload
  rcases hload with hl | ⟨w, h, hl⟩
  · rw [hl]
    rfl
  · rw [hl]
    rfl

/-- Witness for C8 at a failed decode with the default parameters. -/
theorem C8_preprocessor_fallback_witness :
    compressImage "orig-input" 1024 0.8 .loadError (fun _ _ _ => "encoded") = "orig-input" :=
  C8_preprocessor_fallback "orig-input" 1024 0.8 .loadError (fun _ _ _ => "encoded")
    (Or.inl rfl)

/-- C9: for every feature type (multi-angle or scene placement) and
every option label, the built prompt contains the literal option label
and the explicit item-count-preservation clause. -/
theorem C9_prompt_contents :
    ∀ (ft : FeatureType) (option : String),
      strContains (buildPrompt ft option) option = true ∧
      strContains (buildPrompt ft option) COUNT_CLAUSE = true := by
  intro ft option
  cases ft with
  | MULTI_ANGLE =>
    constructor
    · rw [strContains_iff]
      refine ⟨ANGLE_PRE.toList, (ANGLE_MID ++ COUNT_CLAUSE ++ ANGLE_POST).toList, ?_⟩
      simp [buildPrompt, String.toList]
    · rw [strContains_iff]
      refine ⟨(ANGLE_PRE ++ option ++ ANGLE_MID).toList, ANGLE_POST.toList, ?_⟩
      simp [buildPrompt, String.toList]
  | SCENE_PLACEMENT =>
    constructor
    · rw [strContains_iff]
      refine ⟨SCENE_PRE.toList,
        (SCENE_MID1 ++ option ++ SCENE_MID2 ++ COUNT_CLAUSE ++ SCENE_POST).toList, ?_⟩
      simp [buildPrompt, String.toList]
    · rw [strContains_iff]
      refine ⟨(SCENE_PRE ++ option ++ SCENE_MID1 ++ option ++ SCENE_MID2).toList,
        SCENE_POST.toList, ?_⟩
      simp [buildPrompt, String.toList]

/-- C10: the fallback throw after the retry loop is unreachable — no
endpoint behaviour makes the loop exit normally; every run ends in a
success or in an error thrown inside the loop body. -/
theorem C10_fallback_unreachable :
    ∀ e : Endpoint,
      (∀ m, (run e).outcome ≠ .fallback m) ∧
      ((∃ r, (run e).outcome = .success r) ∨ (∃ m, (run e).outcome = .error m)) := by
  intro e
  have hnf : ∀ m, (run e).outcome ≠ .fallback m :=
    fun m => loopAux_no_fallback e 3 0 (Nat.zero_le _) rfl m
  refine ⟨hnf, ?_⟩
  cases hout : (run e).outcome with
  | success r => exact Or.inl ⟨r, rfl⟩
  | error m => exact Or.inr ⟨m, rfl⟩
  | fallback m => exact absurd hout (hnf m)

end GPAI
